import Mathlib

/-!
Shallow embedding of `src/fastai/basic_data.py`: the `DeviceDataLoader`
wrapper (device transfer, transform pipeline, skip-size-one policy) and the
`DataBunch` façade (four device-bound loaders, transform broadcast and
single-batch retrieval with a worker-count override).

Python object aliasing of the shared transform list is modelled with an
explicit heap of transform lists addressed by natural-number references.
Attribute reads and writes on the bundle (instance dictionary first, then
the `__getattr__` forwarding; plain instance-attribute assignment on write)
are modelled explicitly, since `DataBunch` defines `__getattr__` but no
`__setattr__`. Exceptions (assertion failures, `IndexError`, `ValueError`,
`StopIteration`) are modelled with `Except`.
-/

set_option autoImplicit false

namespace FastaiBasicData

/-- A tensor, abstracted to what this module observes of it: its leading
dimension `rows` (Python `t.size(0)`), the device it lives on, whether it
carries gradient-tracking state (for `to_detach`), and an abstract value
that transforms can act on. -/
structure Tensor where
  rows : Nat
  dev : Int
  grad : Bool
  val : Int
deriving DecidableEq

/-- The label component `b[1]` of a raw batch: either a plain tensor or a
list-like composite (what Python `is_listy` recognises). -/
inductive Label where
  | tensor (t : Tensor)
  | listy (ts : List Tensor)
deriving DecidableEq

/-- A collated batch `(input, label)` as yielded by the batch-loading
primitive. -/
structure Batch where
  x : Tensor
  y : Label
deriving DecidableEq

def Tensor.to_dev (t : Tensor) (d : Int) : Tensor :=
  { t with dev := d }

def Label.to_dev : Label → Int → Label
  | .tensor t, d => .tensor (t.to_dev d)
  | .listy ts, d => .listy (ts.map (fun t => t.to_dev d))

/-- Model of the external `to_device` primitive: moves every tensor of the
batch to device `d`. -/
def to_device (b : Batch) (d : Int) : Batch :=
  ⟨b.x.to_dev d, b.y.to_dev d⟩

def Tensor.detach_t (t : Tensor) : Tensor :=
  { t with grad := false }

def Label.detach_l : Label → Label
  | .tensor t => .tensor t.detach_t
  | .listy ts => .listy (ts.map Tensor.detach_t)

/-- Model of the external `to_detach` primitive applied to both components
of a batch, as `one_batch` does with `x` and `y`. -/
def Batch.to_detach (b : Batch) : Batch :=
  ⟨b.x.detach_t, b.y.detach_l⟩

/-- A batch transform. Python removes a transform from a list by `==`,
which for function objects is object identity; `id` models that identity
and `fn` is the function `proc_batch` applies. -/
structure Tfm where
  id : Nat
  fn : Batch → Batch

/-- A heap of transform lists: Python list objects addressed by references.
This makes the aliasing of one transform-list object between the bundle and
its loaders expressible. -/
structure Heap where
  lists : Nat → List Tfm
  next : Nat

def Heap.get (h : Heap) (r : Nat) : List Tfm := h.lists r

def Heap.set (h : Heap) (r : Nat) (v : List Tfm) : Heap :=
  ⟨fun q => if q = r then v else h.lists q, h.next⟩

def Heap.alloc (h : Heap) (v : List Tfm) : Nat × Heap :=
  (h.next, ⟨fun q => if q = h.next then v else h.lists q, h.next + 1⟩)

/-- Modelled from the spec: `listify` lives in the repository's core
module, which is not under `src/`. Per the spec (§3 and §9: the bundle and
every loader built from it reference the same transform-list object), on an
argument that is already a list it keeps the same object, and on `None` it
produces a fresh empty list. -/
def listifyRef (h : Heap) (tfms : Option Nat) : Nat × Heap :=
  match tfms with
  | some r => (r, h)
  | none => h.alloc []

/-- Model of the external batch-loading primitive (the framework
`DataLoader`, out of scope per the spec): it stores the dataset, the
declared batch size, the worker-parallelism count and a collation function,
and yields a sequence of raw collated batches when iterated. Datasets are
abstracted to identifiers. -/
structure DataLoader where
  dataset : Nat
  batch_size : Nat
  num_workers : Nat
  collate_fn : Nat
  batches : List Batch
deriving DecidableEq

/-- Construction of the external primitive from a dataset, as used at
`DataBunch.__init__` line 75: the stored configuration fields are fixed by
the constructor arguments (external contract, spec §6); which raw batches
the primitive will yield is external behaviour, supplied by the parameter
`mkBatches` as a function of the dataset and batch size. -/
def DataLoader.ofDataset (mkBatches : Nat → Nat → List Batch)
    (ds : Nat) (bs : Nat) (nw : Nat) : DataLoader :=
  ⟨ds, bs, nw, 0, mkBatches ds bs⟩

/-- `DeviceDataLoader`: binds a `DataLoader` to a device, with a reference
to its (possibly shared) transform-list object and the skip-size-one
flag. -/
structure DeviceDataLoader where
  dl : DataLoader
  device : Int
  tfmsRef : Nat
  collate_fn : Nat
  skip_size1 : Bool
deriving DecidableEq

/-- Dataclass construction followed by `__post_init__`: the wrapped
primitive's collation function is overwritten with the wrapper's own
(`self.dl.collate_fn = self.collate_fn`), and the transform argument is
passed through `listify`. -/
def DeviceDataLoader.make (h : Heap) (dl : DataLoader) (device : Int)
    (tfms : Option Nat) (collate : Nat) (skip : Bool) :
    DeviceDataLoader × Heap :=
  let p := listifyRef h tfms
  (⟨{ dl with collate_fn := collate }, device, p.1, collate, skip⟩, p.2)

/-- `__len__`: delegates to the wrapped primitive, whose length is its
number of batches. -/
def DeviceDataLoader.len (l : DeviceDataLoader) : Nat := l.dl.batches.length

/-- The `batch_size` property (read): delegates to the wrapped primitive. -/
def DeviceDataLoader.batch_size (l : DeviceDataLoader) : Nat :=
  l.dl.batch_size

/-- The `num_workers` property (read): delegates to the wrapped
primitive. -/
def DeviceDataLoader.num_workers (l : DeviceDataLoader) : Nat :=
  l.dl.num_workers

/-- `add_tfm`: appends the transform to the loader's transform-list object
in place. -/
def DeviceDataLoader.add_tfm (l : DeviceDataLoader) (h : Heap) (t : Tfm) :
    Heap :=
  h.set l.tfmsRef (h.get l.tfmsRef ++ [t])

/-- Python `list.remove`: drops the first element equal (object identity)
to `t`; `none` models the `ValueError` raised when no element matches. -/
def listRemove : List Tfm → Tfm → Option (List Tfm)
  | [], _ => none
  | a :: rest, t =>
    if a.id = t.id then some rest
    else (listRemove rest t).map (fun v => a :: v)

/-- `remove_tfm`: removes the first matching entry from the loader's
transform-list object; `ValueError` when the transform is absent. -/
def DeviceDataLoader.remove_tfm (l : DeviceDataLoader) (h : Heap)
    (t : Tfm) : Except String Heap :=
  match listRemove (h.get l.tfmsRef) t with
  | none => .error "ValueError"
  | some v => .ok (h.set l.tfmsRef v)

/-- `proc_batch`: move the batch to the device, then apply every registered
transform in list order. -/
def DeviceDataLoader.proc_batch (l : DeviceDataLoader) (h : Heap)
    (b : Batch) : Batch :=
  (h.get l.tfmsRef).foldl (fun acc f => f.fn acc) (to_device b l.device)

/-- Line 49: `y = b[1][0] if is_listy(b[1]) else b[1]`, then `y.size(0)`:
the effective row count of the label; `none` models the `IndexError`
raised by `b[1][0]` on an empty composite label. -/
def effSize (b : Batch) : Option Nat :=
  match b.y with
  | .tensor t => some t.rows
  | .listy ts => ts.head?.map Tensor.rows

/-- Body of the `__iter__` loop over the raw batches of the wrapped
primitive: compute the effective label row count, drop the batch when the
skip policy fires, otherwise process and yield it. -/
def iterLoop (l : DeviceDataLoader) (h : Heap) :
    List Batch → Except String (List Batch)
  | [] => .ok []
  | b :: bs =>
    match effSize b with
    | none => .error "IndexError"
    | some n =>
      if l.skip_size1 ∧ n = 1 then iterLoop l h bs
      else (iterLoop l h bs).map (fun rest => l.proc_batch h b :: rest)

/-- `__iter__`: the `skip_size1` assertion, then the filtered, processed
sequence of batches; an `Except.error` models the generator raising
instead of yielding further items. -/
def DeviceDataLoader.iter (l : DeviceDataLoader) (h : Heap) :
    Except String (List Batch) :=
  if l.skip_size1 ∧ l.batch_size ≤ 1 then
    .error "Batch size cannot be one if skip_size1 is set to True"
  else iterLoop l h l.dl.batches

/-- `next(iter(dl))` as evaluated lazily inside `one_batch`: the assertion,
then the first processed batch that survives the skip policy;
`StopIteration` when the raw sequence is exhausted. -/
def iterFirstLoop (l : DeviceDataLoader) (h : Heap) :
    List Batch → Except String Batch
  | [] => .error "StopIteration"
  | b :: bs =>
    match effSize b with
    | none => .error "IndexError"
    | some n =>
      if l.skip_size1 ∧ n = 1 then iterFirstLoop l h bs
      else .ok (l.proc_batch h b)

def DeviceDataLoader.iterFirst (l : DeviceDataLoader) (h : Heap) :
    Except String Batch :=
  if l.skip_size1 ∧ l.batch_size ≤ 1 then
    .error "Batch size cannot be one if skip_size1 is set to True"
  else iterFirstLoop l h l.dl.batches

/-- `DatasetType = Enum('DatasetType', 'Train Valid Test Single')`. -/
inductive DatasetType where
  | Train
  | Valid
  | Test
  | Single
deriving DecidableEq

/-- The `train_dl` argument of `DataBunch.__init__` as far as the
`isinstance(train_dl, DeviceDataLoader)` assertion observes it: either a
raw batch-loading primitive or an already-wrapped device-bound loader. -/
inductive DLArg where
  | raw (dl : DataLoader)
  | wrapped (l : DeviceDataLoader)

/-- `DataBunch`: the bundle of device-bound loaders. `num_workers_inst`
models the `num_workers` slot of the Python instance dictionary: absent
after `__init__`; a plain attribute assignment (`self.num_workers = v`)
fills it, and an attribute read prefers it over the `__getattr__`
forwarding to `train_dl`. -/
structure DataBunch where
  tfmsRef : Nat
  device : Int
  train_dl : DeviceDataLoader
  valid_dl : DeviceDataLoader
  single_dl : DeviceDataLoader
  test_dl : Option DeviceDataLoader
  path : String
  num_workers_inst : Option Nat
deriving DecidableEq

/-- `defaults.device`, the external process-wide default device. -/
def defaults_device : Int := 0

/-- `DataBunch.__init__`: listify the transforms, resolve the device,
assert that the train argument is not already wrapped, then build the
train loader (the only one with `skip_size1=True`), the validation loader,
the single-item loader (a fresh primitive over the validation dataset with
batch size 1 and zero workers) and the optional test loader, each wrapping
via `_create_dl` with the shared `self.tfms` object and collation
function. -/
def DataBunch.init (h : Heap) (mkBatches : Nat → Nat → List Batch)
    (train_dl : DLArg) (valid_dl : DataLoader) (test_dl : Option DataLoader)
    (device : Option Int) (tfms : Option Nat) (path : String)
    (collate : Nat) : Except String (DataBunch × Heap) :=
  let p := listifyRef h tfms
  let dev := match device with
    | none => defaults_device
    | some d => d
  match train_dl with
  | .wrapped _ => .error "AssertionError"
  | .raw tdl =>
    let tp := DeviceDataLoader.make p.2 tdl dev (some p.1) collate true
    let vp := DeviceDataLoader.make tp.2 valid_dl dev (some p.1) collate false
    let sp := DeviceDataLoader.make vp.2
      (DataLoader.ofDataset mkBatches valid_dl.dataset 1 0)
      dev (some p.1) collate false
    let ep : Option DeviceDataLoader × Heap :=
      match test_dl with
      | some t =>
        let q := DeviceDataLoader.make sp.2 t dev (some p.1) collate false
        (some q.1, q.2)
      | none => (none, sp.2)
    .ok (⟨p.1, dev, tp.1, vp.1, sp.1, ep.1, path, none⟩, ep.2)

/-- Reading `bunch.num_workers`: Python looks in the instance dictionary
first; when absent, `__getattr__` forwards to `train_dl`, whose
`num_workers` property reads the wrapped primitive. -/
def DataBunch.get_num_workers (b : DataBunch) : Nat :=
  match b.num_workers_inst with
  | some n => n
  | none => b.train_dl.num_workers

/-- Writing `bunch.num_workers = v`: `DataBunch` defines no `__setattr__`
and no `num_workers` property, so a plain assignment only fills the
instance-dictionary slot and touches no loader. -/
def DataBunch.set_num_workers (b : DataBunch) (v : Nat) : DataBunch :=
  { b with num_workers_inst := some v }

/-- `dl(ds_type)`: the four-way selector of lines 96-101; `none` models
the Python `None` returned when `Test` is selected and no test loader
exists. -/
def DataBunch.dl (b : DataBunch) (ds_type : DatasetType) :
    Option DeviceDataLoader :=
  if ds_type = DatasetType.Train then some b.train_dl
  else if ds_type = DatasetType.Test then b.test_dl
  else if ds_type = DatasetType.Valid then some b.valid_dl
  else some b.single_dl

/-- Python truthiness of the `test_dl` attribute as `dls` evaluates it:
`None` is falsy, and a `DeviceDataLoader` defines no `__bool__`, so
`bool()` falls back to `__len__`; an empty loader is falsy too. -/
def truthy_test_dl (t : Option DeviceDataLoader) : Bool :=
  match t with
  | none => false
  | some l => decide (l.len ≠ 0)

/-- The `dls` property: `[train, valid, single]`, plus the test loader
exactly when the `test_dl` attribute is truthy. -/
def DataBunch.dls (b : DataBunch) : List DeviceDataLoader :=
  if truthy_test_dl b.test_dl then
    [b.train_dl, b.valid_dl, b.single_dl] ++ b.test_dl.toList
  else [b.train_dl, b.valid_dl, b.single_dl]

/-- `DataBunch.add_tfm`: calls `add_tfm` on every loader in `dls`. -/
def DataBunch.add_tfm (b : DataBunch) (h : Heap) (t : Tfm) : Heap :=
  b.dls.foldl (fun acc l => l.add_tfm acc t) h

/-- The device-bound loaders a bundle owns (test included whenever present,
independently of its truthiness); used to state bundle-wide invariants. -/
def DataBunch.loaders (b : DataBunch) : List DeviceDataLoader :=
  [b.train_dl, b.valid_dl, b.single_dl] ++ b.test_dl.toList

/-- `one_batch`: select the loader, read the worker count, assign zero (a
plain attribute assignment on the bundle object), fetch one batch, restore
the worker count in the `finally`, then detach when asked. No `norm`
function is ever registered by this module (registration happens in
external modules, out of scope), so the de-normalization branch can never
fire and is not modelled. -/
def DataBunch.one_batch (b : DataBunch) (h : Heap) (ds_type : DatasetType)
    (detach : Bool) : Except String Batch × DataBunch :=
  let dlOpt := b.dl ds_type
  let w := b.get_num_workers
  let b1 := b.set_num_workers 0
  let fetch : Except String Batch :=
    match dlOpt with
    | none => .error "TypeError"
    | some l => l.iterFirst h
  let b2 := b1.set_num_workers w
  (fetch.map (fun xy => if detach then xy.to_detach else xy), b2)

/-! ### Concrete instances used by witnesses and counterexamples -/

/-- A transform that adds one to the input tensor's value (identity 0). -/
def tfAdd : Tfm := ⟨0, fun b => { b with x := { b.x with val := b.x.val + 1 } }⟩

/-- A transform that doubles the input tensor's value (identity 1). -/
def tfDouble : Tfm := ⟨1, fun b => { b with x := { b.x with val := b.x.val * 2 } }⟩

/-- The empty heap. -/
def heap0 : Heap := ⟨fun _ => [], 0⟩

/-- A heap whose list object 0 is `[tfAdd, tfDouble]`. -/
def heapFG : Heap := heap0.set 0 [tfAdd, tfDouble]

/-- A heap whose list object 5 is `[tfDouble]`. -/
def heapG : Heap := heap0.set 5 [tfDouble]

/-- A batch with a two-row tensor label. -/
def batch2 : Batch := ⟨⟨2, 5, true, 10⟩, Label.tensor ⟨2, 5, true, 3⟩⟩

/-- A batch with a composite label whose first element has one row. -/
def batch1 : Batch := ⟨⟨1, 5, true, 20⟩, Label.listy [⟨1, 5, true, 4⟩]⟩

/-- A batch with value zero, on which `tfAdd` and `tfDouble` do not
commute. -/
def batch0 : Batch := ⟨⟨2, 5, true, 0⟩, Label.tensor ⟨2, 5, true, 0⟩⟩

/-- A primitive with batch size 4 yielding a singleton-label batch between
two regular ones. -/
def dlEx : DataLoader := ⟨7, 4, 2, 9, [batch2, batch1, batch2]⟩

/-- A skip-size-one loader over `dlEx`, transforms at list object 0. -/
def ddlEx : DeviceDataLoader := ⟨dlEx, 3, 0, 9, true⟩

/-- A skip-size-one loader whose primitive has batch size 1. -/
def ddlBs1 : DeviceDataLoader := ⟨⟨7, 1, 2, 9, [batch2]⟩, 3, 0, 9, true⟩

/-- A loader whose transform-list object 0 holds `[tfAdd, tfDouble]` under
`heapFG`. -/
def ldFG : DeviceDataLoader := ⟨dlEx, 3, 0, 9, false⟩

/-- A loader whose transform-list object 5 holds `[tfDouble]` under
`heapG`. -/
def ldG : DeviceDataLoader := ⟨dlEx, 3, 5, 9, false⟩

/-- External batch production for the single-item primitive: none needed by
the witnesses. -/
def mkB0 : Nat → Nat → List Batch := fun _ _ => []

/-- A raw train primitive whose worker count is 4. -/
def tdl4 : DataLoader := ⟨7, 10, 4, 9, [batch2]⟩

/-- A raw validation primitive (dataset 8). -/
def vdl0 : DataLoader := ⟨8, 10, 4, 9, [batch2]⟩

/-- A raw test primitive (dataset 9). -/
def tstDL : DataLoader := ⟨9, 10, 4, 9, [batch2]⟩

/-- A concrete bundle construction: train `tdl4`, validation `vdl0`, test
`tstDL`. -/
def initW : Except String (DataBunch × Heap) :=
  DataBunch.init heap0 mkB0 (DLArg.raw tdl4) vdl0 (some tstDL) none none "." 9

/-- The bundle produced by `initW` (the fallback branch is unreachable). -/
def bW : DataBunch :=
  match initW with
  | .ok q => q.1
  | .error _ => ⟨0, 0, ddlEx, ddlEx, ddlEx, none, ".", none⟩

/-- The heap produced by `initW` (the fallback branch is unreachable). -/
def hW : Heap :=
  match initW with
  | .ok q => q.2
  | .error _ => heap0

/-- A wrapped validation loader for the literal bundle `bT0`. -/
def ddlV : DeviceDataLoader := ⟨vdl0, 3, 0, 9, false⟩

/-- A wrapped test loader whose primitive yields no batches (length 0). -/
def ddlT0 : DeviceDataLoader := ⟨⟨9, 10, 4, 9, []⟩, 3, 0, 9, false⟩

/-- A bundle whose test loader is present but has length 0. -/
def bT0 : DataBunch := ⟨0, 3, ddlEx, ddlV, ddlV, some ddlT0, ".", none⟩

/-! ### Helper lemmas -/

theorem Heap.get_set_self (h : Heap) (r : Nat) (v : List Tfm) :
    (h.set r v).get r = v := by
  simp [Heap.get, Heap.set]

theorem listRemove_append (g : List Tfm) (f : Tfm)
    (hf : f.id ∉ g.map Tfm.id) : listRemove (g ++ [f]) f = some g := by
  induction g with
  | nil => simp [listRemove]
  | cons a rest ih =>
    simp only [List.map_cons, List.mem_cons] at hf
    push_neg at hf
    have ha : a.id ≠ f.id := fun e => hf.1 e.symm
    simp [listRemove, ha, ih hf.2]

/-- Appending a transform to the list object a loader references makes
`proc_batch` apply that transform last. -/
theorem proc_batch_append (l : DeviceDataLoader) (h : Heap) (t : Tfm)
    (x : Batch) (r : Nat) (hr : l.tfmsRef = r) :
    l.proc_batch (h.set r (h.get r ++ [t])) x = t.fn (l.proc_batch h x) := by
  subst hr
  simp [DeviceDataLoader.proc_batch, Heap.get, Heap.set, List.foldl_append]

/-- The `__iter__` loop on a skip-size-one loader yields exactly the
processed batches whose effective label row count is not 1, in order. -/
theorem iterLoop_spec (l : DeviceDataLoader) (h : Heap)
    (hskip : l.skip_size1 = true) (bs : List Batch)
    (hall : ∀ b ∈ bs, (effSize b).isSome) :
    iterLoop l h bs =
      Except.ok ((bs.filter (fun b => decide (effSize b ≠ some 1))).map
        (l.proc_batch h)) := by
  induction bs with
  | nil => rfl
  | cons b rest ih =>
    obtain ⟨n, hn⟩ := Option.isSome_iff_exists.mp (hall b (by simp))
    have ih2 := ih (fun x hx => hall x (by simp [hx]))
    by_cases h1 : n = 1
    · subst h1
      simp [iterLoop, hn, hskip, ih2, List.filter_cons]
    · simp [iterLoop, hn, hskip, h1, ih2, List.filter_cons, Except.map]

/-! ### Claim theorems -/

/-- Claim C1: for a `DeviceDataLoader` with `skip_size1` enabled and batch
size greater than 1 (and every composite label nonempty, so that each batch
has an effective row count), iterating yields exactly the raw batches of
the underlying loader whose effective label row count is not 1, in the
original order, each transformed by `proc_batch`; batches with effective
row count 1 are silently dropped. -/
theorem C1_skip_size1_iteration_filters (l : DeviceDataLoader) (h : Heap)
    (hskip : l.skip_size1 = true) (hbs : l.batch_size > 1)
    (hlab : ∀ b ∈ l.dl.batches, (effSize b).isSome) :
    l.iter h =
      Except.ok ((l.dl.batches.filter
          (fun b => decide (effSize b ≠ some 1))).map
        (l.proc_batch h)) := by
  have hc : ¬(l.skip_size1 = true ∧ l.batch_size ≤ 1) := by
    rintro ⟨-, h2⟩; omega
  simp only [DeviceDataLoader.iter]
  rw [if_neg hc]
  exact iterLoop_spec l h hskip l.dl.batches hlab

/-- Witness for C1 on a concrete loader: of the three raw batches, the one
with an effective label row count of 1 is dropped and the other two are
yielded, processed, in order. -/
theorem C1_skip_size1_iteration_filters_witness :
    ddlEx.skip_size1 = true ∧ ddlEx.batch_size > 1 ∧
      (∀ b ∈ ddlEx.dl.batches, (effSize b).isSome) ∧
      ddlEx.iter heapFG =
        Except.ok ((ddlEx.dl.batches.filter
            (fun b => decide (effSize b ≠ some 1))).map
          (ddlEx.proc_batch heapFG)) :=
  ⟨rfl, by decide, by decide,
    C1_skip_size1_iteration_filters ddlEx heapFG rfl (by decide) (by decide)⟩

/-- Claim C2: for a `DeviceDataLoader` with `skip_size1` enabled and batch
size at most 1, starting iteration fails immediately with the assertion
failure, before any batch is yielded and regardless of the underlying
loader's contents. -/
theorem C2_skip_size1_bs_le_one_asserts (l : DeviceDataLoader) (h : Heap)
    (hskip : l.skip_size1 = true) (hbs : l.batch_size ≤ 1) :
    l.iter h =
      Except.error "Batch size cannot be one if skip_size1 is set to True" := by
  simp only [DeviceDataLoader.iter]
  rw [if_pos ⟨hskip, hbs⟩]

/-- Witness for C2 on a concrete loader with batch size 1. -/
theorem C2_skip_size1_bs_le_one_asserts_witness :
    ddlBs1.skip_size1 = true ∧ ddlBs1.batch_size ≤ 1 ∧
      ddlBs1.iter heap0 =
        Except.error "Batch size cannot be one if skip_size1 is set to True" :=
  ⟨rfl, by decide, C2_skip_size1_bs_le_one_asserts ddlBs1 heap0 rfl (by decide)⟩

/-- Claim C3 (code bug): `one_batch` intends to force the worker count to
zero for the fetch (save, assign zero, restore in a `finally`), but
`self.num_workers = 0` is a plain attribute assignment on the bundle —
`DataBunch` defines `__getattr__` but no `__setattr__` — so it only creates
a shadowing instance attribute and never reaches the selected loader's
underlying primitive. Concretely: in a bundle whose train primitive has
`num_workers = 4`, after the zero assignment the bundle-level read returns
0 while the loader selected for the fetch still reports 4 workers. -/
theorem C3_worker_override_never_reaches_loader :
    (DataBunch.init heap0 mkB0 (DLArg.raw tdl4) vdl0 (some tstDL) none none
        "." 9).map
      (fun q => (((q.1.set_num_workers 0).dl DatasetType.Train).map
          DeviceDataLoader.num_workers,
        (q.1.set_num_workers 0).get_num_workers)) =
      Except.ok (some 4, 0) := rfl

/-- Claim C4: every device-bound loader of a constructed bundle references
the bundle's transform-list object, so appending a transform to that object
makes each loader's `proc_batch` apply it last. -/
theorem C4_loaders_share_bundle_tfms (h : Heap)
    (mkB : Nat → Nat → List Batch) (tdl vdl : DataLoader)
    (test : Option DataLoader) (dev : Option Int) (tfms : Option Nat)
    (p : String) (c : Nat) (b : DataBunch) (h2 : Heap)
    (l : DeviceDataLoader) (t : Tfm) (x : Batch)
    (hinit : DataBunch.init h mkB (DLArg.raw tdl) vdl test dev tfms p c =
      Except.ok (b, h2))
    (hl : l ∈ b.loaders) :
    l.tfmsRef = b.tfmsRef ∧
      l.proc_batch (h2.set b.tfmsRef (h2.get b.tfmsRef ++ [t])) x =
        t.fn (l.proc_batch h2 x) := by
  have href : l.tfmsRef = b.tfmsRef := by
    cases test with
    | none =>
      simp only [DataBunch.init, DeviceDataLoader.make, listifyRef,
        DataLoader.ofDataset, Except.ok.injEq, Prod.mk.injEq] at hinit
      obtain ⟨hb, hh⟩ := hinit
      subst hb
      simp [DataBunch.loaders] at hl
      rcases hl with h1 | h1 | h1 <;> subst h1 <;> rfl
    | some tst =>
      simp only [DataBunch.init, DeviceDataLoader.make, listifyRef,
        DataLoader.ofDataset, Except.ok.injEq, Prod.mk.injEq] at hinit
      obtain ⟨hb, hh⟩ := hinit
      subst hb
      simp [DataBunch.loaders] at hl
      rcases hl with h1 | h1 | h1 | h1 <;> subst h1 <;> rfl
  exact ⟨href, proc_batch_append l h2 t x b.tfmsRef href⟩

/-- Witness for C4: in the concretely constructed bundle `bW`, the train
loader shares the bundle's transform-list object and sees an appended
transform in its `proc_batch`. -/
theorem C4_loaders_share_bundle_tfms_witness :
    bW.train_dl.tfmsRef = bW.tfmsRef ∧
      bW.train_dl.proc_batch
          (hW.set bW.tfmsRef (hW.get bW.tfmsRef ++ [tfAdd])) batch2 =
        tfAdd.fn (bW.train_dl.proc_batch hW batch2) :=
  C4_loaders_share_bundle_tfms heap0 mkB0 tdl4 vdl0 (some tstDL) none none
    "." 9 bW hW bW.train_dl tfAdd batch2 rfl (by decide)

/-- Claim C5: after `one_batch` — whether the fetch produced a batch or an
error — the worker-count value read from the bundle equals the value read
before the call; the statement is unconditional, so it covers both the
success and the error outcome of the fetch. -/
theorem C5_one_batch_restores_num_workers (b : DataBunch) (h : Heap)
    (ds : DatasetType) (d : Bool) :
    ((b.one_batch h ds d).2).get_num_workers = b.get_num_workers := rfl

/-- Counterexample for C6 as stated: with the transform list `[f, g]`,
`add_tfm f` then `remove_tfm f` removes the first occurrence of `f`,
leaving `[g, f]`, which changes `proc_batch` output on a batch where `f`
and `g` do not commute. -/
theorem C6_add_remove_roundtrip_counterexample :
    ((ldFG.remove_tfm (ldFG.add_tfm heapFG tfAdd) tfAdd).toOption.map
        (fun h2 => ldFG.proc_batch h2 batch0)) ≠
      some (ldFG.proc_batch heapFG batch0) := by decide

/-- Claim C6 (amended): provided the transform does not already occur in
the loader's transform list, `add_tfm` followed by `remove_tfm` with the
same transform restores `proc_batch` output; when it does occur,
`remove_tfm` removes the earlier occurrence and the output may change. -/
theorem C6_add_remove_roundtrip_when_fresh (l : DeviceDataLoader) (h : Heap)
    (f : Tfm) (x : Batch)
    (hf : f.id ∉ (h.get l.tfmsRef).map Tfm.id) :
    (l.remove_tfm (l.add_tfm h f) f).map (fun h2 => l.proc_batch h2 x) =
      Except.ok (l.proc_batch h x) := by
  have h1 : (l.add_tfm h f).get l.tfmsRef = h.get l.tfmsRef ++ [f] :=
    Heap.get_set_self h l.tfmsRef _
  simp only [DeviceDataLoader.remove_tfm, h1, listRemove_append _ _ hf]
  simp [DeviceDataLoader.proc_batch, DeviceDataLoader.add_tfm,
    Heap.get_set_self, Heap.get, Heap.set, Except.map]

/-- Witness for the amended C6 on a loader whose list holds only
`tfDouble`, with the fresh transform `tfAdd`. -/
theorem C6_add_remove_roundtrip_when_fresh_witness :
    tfAdd.id ∉ (heapG.get ldG.tfmsRef).map Tfm.id ∧
      (ldG.remove_tfm (ldG.add_tfm heapG tfAdd) tfAdd).map
          (fun h2 => ldG.proc_batch h2 batch2) =
        Except.ok (ldG.proc_batch heapG batch2) :=
  ⟨by decide, C6_add_remove_roundtrip_when_fresh ldG heapG tfAdd batch2
    (by decide)⟩

/-- Claim C7: on a loader whose transform-list object holds `[f, g]`,
`proc_batch b` equals `g (f (to_device b device))`: device transfer first,
then the transforms in registration order. -/
theorem C7_proc_batch_applies_in_order (dl : DataLoader) (dev : Int)
    (c : Nat) (s : Bool) (r : Nat) (h : Heap) (f g : Tfm)
    (hr : h.get r = [f, g]) (x : Batch) :
    DeviceDataLoader.proc_batch ⟨dl, dev, r, c, s⟩ h x =
      g.fn (f.fn (to_device x dev)) := by
  simp [DeviceDataLoader.proc_batch, hr]

/-- Witness for C7 with the concrete transforms `[tfAdd, tfDouble]`. -/
theorem C7_proc_batch_applies_in_order_witness :
    DeviceDataLoader.proc_batch ⟨dlEx, 3, 0, 9, false⟩ heapFG batch2 =
      tfDouble.fn (tfAdd.fn (to_device batch2 3)) :=
  C7_proc_batch_applies_in_order dlEx 3 9 false 0 heapFG tfAdd tfDouble rfl
    batch2

/-- Claim C8: a constructed bundle's `dl(Single)` is its single-item
loader, which wraps a primitive over the validation dataset with batch size
exactly 1, whatever batch sizes the train and validation primitives
declare. -/
theorem C8_single_dl_valid_dataset_bs_one (h : Heap)
    (mkB : Nat → Nat → List Batch) (tdl vdl : DataLoader)
    (test : Option DataLoader) (dev : Option Int) (tfms : Option Nat)
    (p : String) (c : Nat) (b : DataBunch) (h2 : Heap)
    (hinit : DataBunch.init h mkB (DLArg.raw tdl) vdl test dev tfms p c =
      Except.ok (b, h2)) :
    b.dl DatasetType.Single = some b.single_dl ∧
      b.single_dl.dl.dataset = vdl.dataset ∧
      b.single_dl.dl.batch_size = 1 := by
  cases test with
  | none =>
    simp only [DataBunch.init, DeviceDataLoader.make, listifyRef,
      DataLoader.ofDataset, Except.ok.injEq, Prod.mk.injEq] at hinit
    obtain ⟨hb, hh⟩ := hinit
    subst hb
    exact ⟨rfl, rfl, rfl⟩
  | some tst =>
    simp only [DataBunch.init, DeviceDataLoader.make, listifyRef,
      DataLoader.ofDataset, Except.ok.injEq, Prod.mk.injEq] at hinit
    obtain ⟨hb, hh⟩ := hinit
    subst hb
    exact ⟨rfl, rfl, rfl⟩

/-- Witness for C8 on the concretely constructed bundle `bW`, whose train
and validation primitives declare batch size 10. -/
theorem C8_single_dl_valid_dataset_bs_one_witness :
    bW.dl DatasetType.Single = some bW.single_dl ∧
      bW.single_dl.dl.dataset = vdl0.dataset ∧
      bW.single_dl.dl.batch_size = 1 :=
  C8_single_dl_valid_dataset_bs_one heap0 mkB0 tdl4 vdl0 (some tstDL) none
    none "." 9 bW hW rfl

/-- Claim C9: constructing a bundle whose train argument is already a
`DeviceDataLoader` fails with the assertion before any device-bound loader
is built: the result is the bare error, carrying no loader. -/
theorem C9_wrapped_train_dl_asserts (h : Heap)
    (mkB : Nat → Nat → List Batch) (w : DeviceDataLoader)
    (vdl : DataLoader) (test : Option DataLoader) (dev : Option Int)
    (tfms : Option Nat) (p : String) (c : Nat) :
    DataBunch.init h mkB (DLArg.wrapped w) vdl test dev tfms p c =
      Except.error "AssertionError" := rfl

/-- Claim C10: when the test loader is present but has length 0, `dls`
omits it (Python truthiness of a `DeviceDataLoader` defers to `__len__`),
so the bundle-level `add_tfm` issues an append call only on the train,
validation and single-item loaders. -/
theorem C10_empty_test_dl_omitted (b : DataBunch) (l : DeviceDataLoader)
    (h : Heap) (t : Tfm) (htest : b.test_dl = some l) (hlen : l.len = 0) :
    b.dls = [b.train_dl, b.valid_dl, b.single_dl] ∧
      b.add_tfm h t =
        b.single_dl.add_tfm
          (b.valid_dl.add_tfm (b.train_dl.add_tfm h t) t) t := by
  have hdls : b.dls = [b.train_dl, b.valid_dl, b.single_dl] := by
    simp [DataBunch.dls, truthy_test_dl, htest, hlen]
  exact ⟨hdls, by simp [DataBunch.add_tfm, hdls]⟩

/-- Witness for C10 on a bundle whose test loader has no batches. -/
theorem C10_empty_test_dl_omitted_witness :
    bT0.dls = [bT0.train_dl, bT0.valid_dl, bT0.single_dl] ∧
      bT0.add_tfm heap0 tfAdd =
        bT0.single_dl.add_tfm
          (bT0.valid_dl.add_tfm (bT0.train_dl.add_tfm heap0 tfAdd) tfAdd)
          tfAdd :=
  C10_empty_test_dl_omitted bT0 ddlT0 heap0 tfAdd rfl rfl

end FastaiBasicData
